import Mathlib

/-!
Verification of the generation-orchestration layer of the `ai-pose-animator2`
repository (a React front end around a hosted image-generation API).

The repository ships several successive variants of its root component in
`src/App.tsx`, separated by document markers: an early minimal variant, the
variant with app version string "1.2.0" (pose / prompt draw modes, mask
editor), and the variant with app version string "1.7.0" (control layers,
editing canvas, batch processing, seeds).  Where a claim touches code that
differs between the two full variants, both are embedded, suffixed `12`
and `17`.

Modelling conventions (shallow embedding):
* A JavaScript value that the code only tests for truthiness as
  present-or-absent (an image data URL, a mask, a canvas snapshot) is
  modelled as `Option String`, `isSome` standing for truthy.
* JavaScript arrays are Lean lists; `arr[i]` (which yields `undefined`
  out of bounds, and `undefined === null` is `false`) is modelled with
  `List.get?`.
* Remote generation calls are modelled by oracles `... → Except String _`:
  an `Except.error` models a rejected promise, `Except.ok` a fulfilled
  one.  `Promise.all` is modelled by `promiseAll`, which is all-or-nothing
  and preserves input order, as `Promise.all` does for its fulfilled value.
* React state updates inside one handler body are modelled by a single
  pure function from the old state (plus the handler's inputs) to the new
  state, mirroring that React batches them into one update.
-/

namespace PoseAnimator

/-! ## Media codec helpers (src/App.tsx, both variants)

`const gcd = (a, b) => (b === 0 ? a : gcd(b, a % b));`
and `getAspectRatioFromDataUrl`, whose `onload` handler computes, for the
image's `naturalWidth`/`naturalHeight` (non-negative integers `w`, `h`):
if `w > 0 && h > 0` the string `` `${w / divisor}:${h / divisor}` `` with
`divisor = gcd(w, h)`, else the fallback `'1:1'` (also used on load error).
The dimensions are modelled as `Int` so that the claimed non-positive case
is representable; the guarded branch only ever sees positive values. -/

def jsGcd (a b : Nat) : Nat :=
  if b = 0 then a else jsGcd b (a % b)
termination_by b
decreasing_by exact Nat.mod_lt _ (Nat.pos_of_ne_zero (by assumption))

/-- The `onload` computation of `getAspectRatioFromDataUrl`, as a function
of the decoded raster dimensions. -/
def aspectRatioFromDimensions (w h : Int) : String :=
  if 0 < w ∧ 0 < h then
    toString (w.toNat / jsGcd w.toNat h.toNat) ++ ":" ++
      toString (h.toNat / jsGcd w.toNat h.toNat)
  else
    "1:1"

theorem jsGcd_eq_gcd (a b : Nat) : jsGcd a b = Nat.gcd a b := by
  induction b using Nat.strong_induction_on generalizing a with
  | _ b ih =>
    rw [jsGcd]
    by_cases hb : b = 0
    · subst hb; simp
    · rw [if_neg hb, ih (a % b) (Nat.mod_lt _ (Nat.pos_of_ne_zero hb)) b,
        Nat.gcd_comm b (a % b), ← Nat.gcd_rec b a, Nat.gcd_comm b a]

/-! ## Control-layer strength adverb (src/services/geminiService.ts,
`generateImageWithControls` / `addControlPrompt`) -/

/-- The adverb chosen from a control layer's numeric weight inside
`addControlPrompt` (weights are integers from the 0–200 slider). -/
def strengthAdverb (weight : Int) : String :=
  if weight < 50 then "loosely reference"
  else if weight < 90 then "generally follow"
  else if weight ≤ 110 then "strictly follow"
  else if weight ≤ 150 then "very strictly follow with high precision"
  else "follow with extreme, absolute, pixel-level precision"

/-- The line pushed onto `controlPrompts` for an active control layer. -/
def controlPromptLine (description : String) (weight : Int) : String :=
  "- **" ++ description ++ " (Strength: " ++ toString weight ++
    "%)**: You MUST " ++ strengthAdverb weight ++ " the provided \"" ++
    description ++ "\" map."

/-! ## Generation results, promise joins, and the multimodal services -/

/-- The record produced by `parseImageGenerationResponse` on success: the
parser throws when no inline image part is present, so a parsed response
always carries an image. -/
structure ParsedResponse where
  image : String
  text : Option String
deriving DecidableEq

/-- `GenerationResult` (src/types.ts, later variant): `groundingChunks`
are carried through unchanged and never inspected by the claims, so they
are omitted here. -/
structure GenerationResult where
  image : Option String
  text : Option String
  seed : Option Int
deriving DecidableEq

/-- `Promise.all` over already-settled outcomes: rejects iff some input
rejected (no partial fulfilment value), and fulfils with the values in
input order. -/
def promiseAll {α : Type} : List (Except String α) → Except String (List α)
  | [] => .ok []
  | .error e :: _ => .error e
  | .ok a :: cs =>
    match promiseAll cs with
    | .error e => .error e
    | .ok as => .ok (a :: as)

/-- `{ ...parseImageGenerationResponse(response), seed }`: the result
record built for each settled call in `generateImageWithControls`,
`editImageWithPrompt` and `editImageWithMask`. -/
def mkSeededResult (seed : Option Int) (p : ParsedResponse) : GenerationResult :=
  { image := some p.image, text := p.text, seed := seed }

/-- The fan-out common to the multimodal services (`generateImageWithControls`
lines 205–214, `editImageWithPrompt` lines 266–278): issue one call per
variation, tag each parsed response with the caller's seed, and join with
`Promise.all`.  `call i` is the oracle outcome of the `i`-th remote call. -/
def fanOutGenerate (n : Nat) (seed : Option Int)
    (call : Nat → Except String ParsedResponse) :
    Except String (List GenerationResult) :=
  promiseAll ((List.range n).map fun i => (call i).map (mkSeededResult seed))

theorem promiseAll_map_ok {α : Type} (as : List α) :
    promiseAll (as.map Except.ok) = .ok as := by
  induction as with
  | nil => rfl
  | cons a as ih => simp [promiseAll, ih]

theorem promiseAll_ok_elim {α : Type} (cs : List (Except String α)) (as : List α)
    (h : promiseAll cs = .ok as) : cs = as.map Except.ok := by
  induction cs generalizing as with
  | nil =>
    simp only [promiseAll] at h
    cases h
    rfl
  | cons c cs ih =>
    cases c with
    | error e => simp [promiseAll] at h
    | ok a =>
      simp only [promiseAll] at h
      cases hrec : promiseAll cs with
      | error e => rw [hrec] at h; cases h
      | ok as' =>
        rw [hrec] at h
        cases h
        simp [ih as' hrec]

theorem promiseAll_error_of_mem_error {α : Type} (cs : List (Except String α))
    (e : String) (h : Except.error e ∈ cs) : ∃ e', promiseAll cs = .error e' := by
  induction cs with
  | nil => simp at h
  | cons c cs ih =>
    cases c with
    | error e' => exact ⟨e', rfl⟩
    | ok a =>
      have hm : Except.error e ∈ cs := by
        rcases List.mem_cons.mp h with h1 | h1
        · exact absurd h1 (by simp)
        · exact h1
      rcases ih hm with ⟨e', he'⟩
      exact ⟨e', by simp [promiseAll, he']⟩

/-- `editImageWithPrompt` (service lines 225–288), reduced to its result
production: `numberOfVariations` calls joined by `Promise.all`, each
settled response parsed and tagged with the caller's seed.  The
instruction-text assembly does not affect the returned records. -/
def editImageWithPrompt (numberOfVariations : Nat) (seed : Option Int)
    (call : Nat → Except String ParsedResponse) :
    Except String (List GenerationResult) :=
  fanOutGenerate numberOfVariations seed call

/-- `generateImageWithControls` (service lines 137–222), reduced the same
way: its fan-out and seed tagging (lines 205–214) are identical to
`editImageWithPrompt`'s. -/
def generateImageWithControls (numberOfVariations : Nat) (seed : Option Int)
    (call : Nat → Except String ParsedResponse) :
    Except String (List GenerationResult) :=
  fanOutGenerate numberOfVariations seed call

theorem fanOutGenerate_ok_elim (n : Nat) (seed : Option Int)
    (call : Nat → Except String ParsedResponse) (rs : List GenerationResult)
    (h : fanOutGenerate n seed call = .ok rs) :
    (List.range n).map (fun i => (call i).map (mkSeededResult seed)) =
      rs.map Except.ok :=
  promiseAll_ok_elim _ _ h

/-- On a fulfilled fan-out, the `i`-th result is the seeded record of the
`i`-th call's parsed response: input (request) order, not completion order. -/
theorem fanOutGenerate_get (n : Nat) (seed : Option Int)
    (call : Nat → Except String ParsedResponse) (rs : List GenerationResult)
    (h : fanOutGenerate n seed call = .ok rs) (i : Nat) (hi : i < n) :
    ∃ p, call i = .ok p ∧ rs.get? i = some (mkSeededResult seed p) := by
  have hmap := fanOutGenerate_ok_elim n seed call rs h
  have hlen : n = rs.length := by
    have := congrArg List.length hmap
    simpa using this
  have hget := congrArg (List.get? · i) hmap
  simp only [List.getElem?_map, List.getElem?_range hi, List.get?_eq_getElem?,
    Option.map_some'] at hget
  cases hr : rs[i]? with
  | none =>
    rw [hr] at hget
    simp at hget
  | some r =>
    rw [hr] at hget
    cases hc : call i with
    | error e => rw [hc] at hget; simp [Except.map] at hget
    | ok p =>
      rw [hc] at hget
      simp only [Except.map, Option.map_some'] at hget
      cases hget
      exact ⟨p, rfl, by rw [List.get?_eq_getElem?, hr]⟩

/-! ## Generation history insertion (src/App.tsx)

`setGenerationHistory(prev => [...generatedResults, ...prev].slice(0, 10))`
in `handleGenerate` (both variants) and `handleChatEdit`, and
`.slice(0, 50)` in `handleStartBatch`. -/

/-- `[...batch, ...prev].slice(0, cap)`. -/
def historyInsert (cap : Nat) (batch prev : List GenerationResult) :
    List GenerationResult :=
  (batch ++ prev).take cap

/-- The history cap used by the normal generate flow. -/
def normalHistoryCap : Nat := 10

/-- The history cap used during a batch run. -/
def batchHistoryCap : Nat := 50

theorem historyInsert_length (cap : Nat) (batch prev : List GenerationResult) :
    (historyInsert cap batch prev).length =
      min (batch.length + prev.length) cap := by
  simp [historyInsert, Nat.min_comm]

theorem historyInsert_le_cap (cap : Nat) (batch prev : List GenerationResult) :
    (historyInsert cap batch prev).length ≤ cap := by
  simp [historyInsert]

theorem historyInsert_head (cap : Nat) (batch prev : List GenerationResult)
    (hb : batch ≠ []) (hcap : 0 < cap) :
    (historyInsert cap batch prev).head? = batch.head? := by
  cases batch with
  | nil => exact absurd rfl hb
  | cons b bs =>
    cases cap with
    | zero => exact absurd hcap (by simp)
    | succ c => simp [historyInsert]

/-! ## Session-state snapshots and generation case selection

Two variants of `handleGenerate` are embedded: the App v1.2.0 variant
(draw-mode `pose`/`prompt`, hand-drawn canvas, mask editor) and the App
v1.7.0 variant (control layers, generative-canvas editing state). -/

/-- `type EditMode = 'pose' | 'prompt'` (App v1.2.0). -/
inductive EditMode where
  | pose
  | prompt
deriving DecidableEq

/-- `ControlLayerData` (src/types.ts): an optional control image and an
integer weight (slider range 0–200). -/
structure ControlLayerData where
  image : Option String
  weight : Int
deriving DecidableEq

/-- `ControlLayers` (src/types.ts). -/
structure ControlLayers where
  pose : ControlLayerData
  canny : ControlLayerData
  depth : ControlLayerData
  scribble : ControlLayerData
deriving DecidableEq

/-- `EditingState` (App v1.7.0): the in-progress generative-canvas edit. -/
structure EditingState where
  isActive : Bool
  imageSrc : Option String
  editImage : Option String
  editMask : Option String
  editAspectRatio : Option String
deriving DecidableEq

/-- The slice of App v1.2.0 state that `handleGenerate` (lines 305–375)
branches on. -/
structure Snapshot12 where
  uploadedImages : List (Option String)
  prompt : String
  canvasImage : Option String
  maskImage : Option String
  editMode : EditMode
deriving DecidableEq

/-- The slice of App v1.7.0 state that `handleGenerate` (lines 1086–1162)
branches on (`currentEditingState` is the argument defaulted from state). -/
structure Snapshot17 where
  uploadedImages : List (Option String)
  prompt : String
  controlLayers : ControlLayers
  editingState : EditingState
deriving DecidableEq

/-- `uploadedImages.filter(img => img !== null)`. -/
def validImages (uploadedImages : List (Option String)) : List String :=
  uploadedImages.filterMap id

/-- JavaScript `String.prototype.trim`: strip leading and trailing
whitespace (structural on the character list, so that concrete instances
evaluate). -/
def jsTrim (s : String) : String :=
  ⟨((s.data.dropWhile Char.isWhitespace).reverse.dropWhile
      Char.isWhitespace).reverse⟩

/-- `prompt.trim().length > 0`. -/
def hasPrompt (prompt : String) : Bool :=
  (jsTrim prompt).length > 0

/-- `Object.values(controlLayers).some(l => l.image)`. -/
def hasActiveControl (c : ControlLayers) : Bool :=
  c.pose.image.isSome || c.canny.image.isSome ||
    c.depth.image.isSome || c.scribble.image.isSome

/-- The six case labels of the spec's decision table (the pose case only
exists in the earlier variant, the control-layer case only in the later). -/
inductive GenCase where
  | maskEdit
  | controlCompose
  | textToImage
  | poseEdit
  | promptEdit
  | invalid
deriving DecidableEq

/-- Case selection of App v1.2.0 `handleGenerate` (the `if`/`else if`
chain at lines 337–364), as a pure function of the snapshot.
`validImages[0]` is truthy iff the filtered list is non-empty. -/
def selectCase12 (s : Snapshot12) : GenCase :=
  if s.editMode = .prompt ∧ hasPrompt s.prompt ∧
      validImages s.uploadedImages ≠ [] ∧ s.maskImage.isSome then
    .maskEdit
  else if s.editMode = .prompt ∧ hasPrompt s.prompt ∧
      validImages s.uploadedImages = [] then
    .textToImage
  else if s.editMode = .pose ∧ s.canvasImage.isSome ∧
      validImages s.uploadedImages ≠ [] then
    .poseEdit
  else if s.editMode = .prompt ∧ hasPrompt s.prompt ∧
      validImages s.uploadedImages ≠ [] then
    .promptEdit
  else
    .invalid

/-- Case selection of App v1.7.0 `handleGenerate` (the `if`/`else if`
chain at lines 1109–1135): note that CASE 1 tests only
`currentEditingState.isActive && editImage && editMask` — it does not
test the prompt. -/
def selectCase17 (s : Snapshot17) : GenCase :=
  if s.editingState.isActive ∧ s.editingState.editImage.isSome ∧
      s.editingState.editMask.isSome then
    .maskEdit
  else if hasActiveControl s.controlLayers then
    .controlCompose
  else if hasPrompt s.prompt ∧ validImages s.uploadedImages = [] then
    .textToImage
  else if hasPrompt s.prompt ∧ validImages s.uploadedImages ≠ [] then
    .promptEdit
  else
    .invalid

/-- The claim's six-case priority table, written from the claim's own
wording (for comparison with the code's selection functions): (1) mask-edit
needs base image, painted mask AND a non-empty prompt; (2) control
composition; (3) text-to-image; (4) pose-driven edit; (5) prompt-driven
edit with no mask/control active; (6) validation error. -/
def claimedSelectCase (editActive : Bool) (editBase editMask : Bool)
    (anyControl : Bool) (promptNonempty : Bool) (imageCount : Nat)
    (drawMode : EditMode) (skeletonCanvas : Bool) : GenCase :=
  if editActive ∧ editBase ∧ editMask ∧ promptNonempty then .maskEdit
  else if anyControl then .controlCompose
  else if promptNonempty ∧ imageCount = 0 then .textToImage
  else if drawMode = .pose ∧ skeletonCanvas ∧ 1 ≤ imageCount then .poseEdit
  else if drawMode = .prompt ∧ promptNonempty ∧ 1 ≤ imageCount ∧
      ¬editMask ∧ ¬anyControl then .promptEdit
  else .invalid

/-- The abstraction of a v1.7.0 snapshot into the claim's vocabulary:
the later variant has no draw-mode selector and no skeleton canvas state
(a drawn pose is a control layer), so those spec inputs are `prompt` and
`false` for it. -/
def claimedSelectCaseOf17 (s : Snapshot17) : GenCase :=
  claimedSelectCase s.editingState.isActive s.editingState.editImage.isSome
    s.editingState.editMask.isSome (hasActiveControl s.controlLayers)
    (hasPrompt s.prompt) (validImages s.uploadedImages).length .prompt false

/-! ## Uploaded-image mutation and its derived-state invariants
(`handleImageUpload`, App v1.7.0 lines 914–922; the v1.2.0 handler at
lines 163–183 performs the same updates plus a mask clear). -/

/-- `CharacterLock` (`{ index, lockAppearance, lockClothing }`). -/
structure CharacterLock where
  index : Nat
  lockAppearance : Bool
  lockClothing : Bool
deriving DecidableEq

/-- The slice of App state that `handleImageUpload` reads and writes. -/
structure UploadState where
  uploadedImages : List (Option String)
  lockedCharacter : Option CharacterLock
  styleReferenceIndex : Option Nat
  aspectRatio : String
deriving DecidableEq

/-- `images[i] === null`: `undefined` (out of bounds) is not `null`. -/
def slotIsNull (images : List (Option String)) (i : Nat) : Bool :=
  images.get? i = some none

/-- `handleImageUpload(images)` as a pure state transformer.  All four
updates happen in the same handler body, hence in the same React state
update. -/
def handleImageUpload (s : UploadState) (images : List (Option String)) :
    UploadState :=
  let lockedCharacter :=
    match s.lockedCharacter with
    | some lc => if slotIsNull images lc.index then none else some lc
    | none => none
  let styleReferenceIndex :=
    match s.styleReferenceIndex with
    | some i => if slotIsNull images i then none else some i
    | none => none
  let hadImages := s.uploadedImages.any (·.isSome)
  let nowHasImages := images.any (·.isSome)
  let aspectRatio :=
    if ¬hadImages ∧ nowHasImages then "original"
    else if hadImages ∧ ¬nowHasImages ∧ s.aspectRatio = "original" then "1:1"
    else s.aspectRatio
  { uploadedImages := images, lockedCharacter := lockedCharacter,
    styleReferenceIndex := styleReferenceIndex, aspectRatio := aspectRatio }

/-! ## Aspect-ratio persistence effects

App v1.2.0 (lines 129–133):
`useEffect(() => { if (aspectRatio !== 'original') localStorage.setItem(..., aspectRatio); }, [aspectRatio])`
App v1.7.0 (line 906):
`useEffect(() => { localStorage.setItem('ai-app-aspectRatio', aspectRatio); }, [aspectRatio])`
The stored entry is modelled as `Option String` (`none` = key absent). -/

def persistAspectRatio12 (stored : Option String) (aspectRatio : String) :
    Option String :=
  if aspectRatio ≠ "original" then some aspectRatio else stored

def persistAspectRatio17 (_stored : Option String) (aspectRatio : String) :
    Option String :=
  some aspectRatio

/-! ## Project import (`handleImportProject`)

App v1.2.0 (lines 413–504) validates the parsed document and its
major-version before applying any field; App v1.7.0 (lines 1219–1256)
only checks that the parsed value is an object, with no version check. -/

/-- `parseInt(s, 10)` for the non-negative inputs occurring here: the
longest leading run of decimal digits, `NaN` (`none`) when there is
none. -/
def jsParseInt (s : String) : Option Nat :=
  let ds := s.data.takeWhile Char.isDigit
  if ds.isEmpty then none
  else some (ds.foldl (fun n c => 10 * n + (c.toNat - 48)) 0)

/-- `parseInt(versionString.split('.')[0], 10)`: `split('.')[0]` is the
prefix of the string before its first `'.'` (the whole string when there
is none). -/
def majorVersionOf (version : String) : Option Nat :=
  jsParseInt ⟨version.data.takeWhile (· ≠ '.')⟩

/-- `const APP_VERSION = '1.2.0';` (earlier variant). -/
def appVersion12 : String := "1.2.0"

/-- `const APP_VERSION = '1.7.0';` (later variant). -/
def appVersion17 : String := "1.7.0"

/-- The parsed project document, restricted to the fields these claims
touch.  `version = some ""` models a present-but-falsy version string. -/
structure ProjectData where
  version : Option String
  uploadedImages : Option (List (Option String))
  prompt : Option String
  aspectRatio : Option String
  numberOfVariations : Option Nat
deriving DecidableEq

/-- The slice of session state written by import. -/
structure ImportedState where
  uploadedImages : List (Option String)
  prompt : String
  aspectRatio : String
  numberOfVariations : Nat
deriving DecidableEq

/-- Field-by-field application with `||`-defaults, common to both import
variants (v1.2.0 lines 449–474, v1.7.0 lines 1229–1243). -/
def applyProjectData (data : ProjectData) : ImportedState :=
  { uploadedImages := data.uploadedImages.getD [none, none, none]
    prompt := data.prompt.getD ""
    aspectRatio := data.aspectRatio.getD "1:1"
    numberOfVariations := data.numberOfVariations.getD 1 }

/-- The v1.2.0 version-mismatch error message. -/
def versionMismatchError (fileVersion : String) : String :=
  "不支援的專案版本。此檔案是由較新版本的應用程式 (" ++ fileVersion ++ ") 建立的。"

/-- The v1.2.0 invalid-document error message. -/
def invalidProjectError : String :=
  "無效的專案檔。檔案可能已損壞或缺少必要的版本資訊。"

/-- App v1.2.0 import: returns the unchanged current state with an error
when validation fails, and the applied state otherwise.  Validation runs
before any `set` call, so a rejected file leaves every field untouched. -/
def handleImportProject12 (current : ImportedState) (data : ProjectData) :
    ImportedState × Option String :=
  match data.version with
  | none => (current, some invalidProjectError)
  | some v =>
    if v = "" then (current, some invalidProjectError)
    else
      match majorVersionOf v with
      | none => (current, some (versionMismatchError v))
      | some fileMajor =>
        if fileMajor > (majorVersionOf appVersion12).getD 0 then
          (current, some (versionMismatchError v))
        else
          (applyProjectData data, none)

/-- App v1.7.0 import: `if (!data || typeof data !== 'object') throw`,
then every field is applied — the document's `version` is never read. -/
def handleImportProject17 (current : ImportedState) (data : Option ProjectData) :
    ImportedState × Option String :=
  match data with
  | none => (current, some "無效的專案檔。")
  | some d => (applyProjectData d, none)

/-! ## The generate action (App v1.7.0, lines 1086–1162) and the batch
loop (lines 1164–1195), as state transformers over oracles for the
remote calls. -/

/-- `[trimmed, ...prev.filter(p => p !== trimmed)].slice(0, 50)`. -/
def promptHistoryInsert (trimmed : String) (prev : List String) : List String :=
  (trimmed :: prev.filter (· ≠ trimmed)).take 50

/-- The CASE 5 validation error of v1.7.0 `handleGenerate`. -/
def invalidStateError17 : String :=
  "請檢查您的輸入。需要提示詞，或控制圖層與輸入圖片。"

/-- The outcome of one run of `handleGenerate`. -/
structure GenerateOutcome where
  promptHistory : List String
  generationHistory : List GenerationResult
  results : List GenerationResult
  error : Option String
deriving DecidableEq

/-- v1.7.0 `handleGenerate`: the prompt-history insertion happens
unconditionally at the top of the handler (lines 1091–1094), before the
`try` block that selects the case and awaits the remote call; the selected
case's remote call is the oracle `call`.  On any thrown error — including
the CASE 5 validation error — the `catch` block only sets the error
message, leaving both histories as they were (the editing-state merge into
the visible `results` is elided; no claim touches it). -/
def handleGenerate17 (promptHistory : List String)
    (generationHistory : List GenerationResult) (s : Snapshot17)
    (call : GenCase → Except String (List GenerationResult)) :
    GenerateOutcome :=
  let ph :=
    if hasPrompt s.prompt then
      promptHistoryInsert (jsTrim s.prompt) promptHistory
    else promptHistory
  match selectCase17 s with
  | .invalid =>
    { promptHistory := ph, generationHistory := generationHistory,
      results := [], error := some invalidStateError17 }
  | c =>
    match call c with
    | .ok rs =>
      { promptHistory := ph,
        generationHistory := historyInsert normalHistoryCap rs generationHistory,
        results := rs, error := none }
    | .error e =>
      { promptHistory := ph, generationHistory := generationHistory,
        results := [], error := some e }

/-- The state threaded through `handleStartBatch`'s sequential loop. -/
structure BatchState where
  batchResults : List GenerationResult
  generationHistory : List GenerationResult
  promptHistory : List String
deriving DecidableEq

/-- One iteration of the `for` loop in `handleStartBatch` (lines
1172–1193).  The duplicate check `promptHistory.every(p => p !== currentPrompt)`
reads the `promptHistory` captured when the handler was invoked (stale
closure), so it is a separate parameter.  The per-item `try`/`catch`
swallows a failed call: the state is returned unchanged and the loop
continues with the next prompt. -/
def batchStep (initialPromptHistory : List String)
    (call : String → Except String (List GenerationResult))
    (st : BatchState) (currentPrompt : String) : BatchState :=
  let st :=
    if initialPromptHistory.all (· ≠ currentPrompt) then
      { st with promptHistory := (currentPrompt :: st.promptHistory).take 50 }
    else st
  match call currentPrompt with
  | .ok rs =>
    { st with
      batchResults := st.batchResults ++ rs,
      generationHistory := historyInsert batchHistoryCap rs st.generationHistory }
  | .error _ => st

/-- The whole sequential loop of `handleStartBatch`. -/
def runBatch (initialPromptHistory : List String)
    (call : String → Except String (List GenerationResult))
    (st : BatchState) (prompts : List String) : BatchState :=
  prompts.foldl (batchStep initialPromptHistory call) st

/-! # Theorems for the claims -/

/-- Claim C8: the aspect-ratio-from-dimensions computation returns, for
positive integer dimensions `w`, `h`, the string `"a:b"` with
`a = w / gcd w h` and `b = h / gcd w h` (so `gcd a b = 1`), and returns
`"1:1"` for any non-positive dimension. -/
theorem claim_C8 (w h : Int) :
    (0 < w → 0 < h →
      aspectRatioFromDimensions w h =
        toString (w.toNat / Nat.gcd w.toNat h.toNat) ++ ":" ++
          toString (h.toNat / Nat.gcd w.toNat h.toNat) ∧
      Nat.gcd (w.toNat / Nat.gcd w.toNat h.toNat)
        (h.toNat / Nat.gcd w.toNat h.toNat) = 1) ∧
    ((w ≤ 0 ∨ h ≤ 0) → aspectRatioFromDimensions w h = "1:1") := by
  constructor
  · intro hw hh
    have hw' : 0 < w.toNat := by omega
    constructor
    · unfold aspectRatioFromDimensions
      rw [if_pos ⟨hw, hh⟩, jsGcd_eq_gcd]
    · exact Nat.coprime_div_gcd_div_gcd (Nat.gcd_pos_of_pos_left _ hw')
  · intro hle
    unfold aspectRatioFromDimensions
    rw [if_neg (by omega)]

/-- Witness for C8 at concrete dimensions 1920 × 1080 and a zero width. -/
theorem claim_C8_witness :
    aspectRatioFromDimensions 1920 1080 = "16:9" ∧
    aspectRatioFromDimensions 0 1080 = "1:1" := by
  have h1 := (claim_C8 1920 1080).1 (by norm_num) (by norm_num)
  have h2 := (claim_C8 0 1080).2 (Or.inl (by norm_num))
  refine ⟨?_, h2⟩
  rw [h1.1]
  decide

/-- Counterexample to claim C7 as stated: for weights above 150 the
adverb is the longer phrase
"follow with extreme, absolute, pixel-level precision", not
"follow with pixel-level precision", and for 111–150 it is
"very strictly follow with high precision", not "very strictly follow". -/
theorem claim_C7_counterexample :
    strengthAdverb 160 ≠ "follow with pixel-level precision" ∧
    strengthAdverb 120 ≠ "very strictly follow" := by
  constructor <;> decide

/-- Claim C7 (amended): the weight-to-adverb translation uses exactly the
claimed thresholds (< 50, 50–89, 90–110, 111–150, > 150), with the two
top phrases being the code's longer variants. -/
theorem claim_C7 (w : Int) :
    (w < 50 → strengthAdverb w = "loosely reference") ∧
    (50 ≤ w → w < 90 → strengthAdverb w = "generally follow") ∧
    (90 ≤ w → w ≤ 110 → strengthAdverb w = "strictly follow") ∧
    (111 ≤ w → w ≤ 150 →
      strengthAdverb w = "very strictly follow with high precision") ∧
    (151 ≤ w →
      strengthAdverb w =
        "follow with extreme, absolute, pixel-level precision") := by
  unfold strengthAdverb
  refine ⟨?_, ?_, ?_, ?_, ?_⟩ <;> intros <;> split_ifs <;>
    first | rfl | omega

/-- Witness for C7 at concrete weights in each claimed band. -/
theorem claim_C7_witness :
    strengthAdverb 100 = "strictly follow" ∧
    strengthAdverb 160 =
      "follow with extreme, absolute, pixel-level precision" :=
  ⟨(claim_C7 100).2.2.1 (by norm_num) (by norm_num),
   (claim_C7 160).2.2.2.2 (by norm_num)⟩

/-- Every element of a fulfilled multimodal fan-out carries the caller's
seed (shared core of claim C6). -/
theorem fanOutGenerate_seed (n : Nat) (seed : Option Int)
    (call : Nat → Except String ParsedResponse) (rs : List GenerationResult)
    (h : fanOutGenerate n seed call = .ok rs) :
    ∀ r ∈ rs, r.seed = seed := by
  intro r hr
  have hmap := fanOutGenerate_ok_elim n seed call rs h
  have hmem : Except.ok r ∈
      (List.range n).map (fun i => (call i).map (mkSeededResult seed)) := by
    rw [hmap]; exact List.mem_map_of_mem _ hr
  rcases List.mem_map.mp hmem with ⟨i, _, hi⟩
  cases hc : call i with
  | error e => rw [hc] at hi; simp [Except.map] at hi
  | ok p =>
    rw [hc] at hi
    simp only [Except.map, Except.ok.injEq] at hi
    rw [← hi]
    rfl

/-- Claim C6: on the multimodal paths (`editImageWithPrompt`,
`generateImageWithControls`), when the caller supplies a seed `S`, every
`GenerationResult` in a fulfilled batch carries `seed = S` — the parsed
inline-image response reports no seed, so each result is tagged with the
caller's. -/
theorem claim_C6 (n : Nat) (S : Int)
    (call : Nat → Except String ParsedResponse) (rs : List GenerationResult) :
    (editImageWithPrompt n (some S) call = .ok rs →
      ∀ r ∈ rs, r.seed = some S) ∧
    (generateImageWithControls n (some S) call = .ok rs →
      ∀ r ∈ rs, r.seed = some S) :=
  ⟨fanOutGenerate_seed n (some S) call rs,
   fanOutGenerate_seed n (some S) call rs⟩

/-- Witness for C6: a two-variation edit call with seed 7. -/
theorem claim_C6_witness :
    (mkSeededResult (some 7) ⟨"img", none⟩).seed = some 7 :=
  (claim_C6 2 7 (fun _ => Except.ok ⟨"img", none⟩)
      [mkSeededResult (some 7) ⟨"img", none⟩,
       mkSeededResult (some 7) ⟨"img", none⟩]).1
    rfl _ (by decide)

/-- Claim C4: `handleImageUpload` re-establishes the derived-state
invariants in the same update: (a) a character lock whose slot is null in
the new image array is cleared; (b) a style reference whose slot is null
is cleared; (c) empty→non-empty snaps the aspect ratio to `original`, and
non-empty→empty while at `original` snaps it back to `1:1`. -/
theorem claim_C4 (s : UploadState) (images : List (Option String)) :
    (∀ lc, s.lockedCharacter = some lc → slotIsNull images lc.index = true →
      (handleImageUpload s images).lockedCharacter = none) ∧
    (∀ i, s.styleReferenceIndex = some i → slotIsNull images i = true →
      (handleImageUpload s images).styleReferenceIndex = none) ∧
    (s.uploadedImages.any (·.isSome) = false →
      images.any (·.isSome) = true →
      (handleImageUpload s images).aspectRatio = "original") ∧
    (s.uploadedImages.any (·.isSome) = true →
      images.any (·.isSome) = false →
      s.aspectRatio = "original" →
      (handleImageUpload s images).aspectRatio = "1:1") := by
  refine ⟨?_, ?_, ?_, ?_⟩
  · intro lc hlc hnull
    simp [handleImageUpload, hlc, hnull]
  · intro i hi hnull
    simp [handleImageUpload, hi, hnull]
  · intro hhad hnow
    simp [handleImageUpload, hhad, hnow]
  · intro hhad hnow horig
    simp [handleImageUpload, hhad, hnow, horig]

/-- Witness for C4: removing the only image clears a lock on slot 0, a
style reference on slot 0, and resets an `original` ratio to `1:1`. -/
theorem claim_C4_witness :
    (handleImageUpload
        { uploadedImages := [some "a", none, none],
          lockedCharacter := some ⟨0, true, false⟩,
          styleReferenceIndex := some 0,
          aspectRatio := "original" }
        [none, none, none]).lockedCharacter = none ∧
    (handleImageUpload
        { uploadedImages := [some "a", none, none],
          lockedCharacter := some ⟨0, true, false⟩,
          styleReferenceIndex := some 0,
          aspectRatio := "original" }
        [none, none, none]).styleReferenceIndex = none ∧
    (handleImageUpload
        { uploadedImages := [some "a", none, none],
          lockedCharacter := some ⟨0, true, false⟩,
          styleReferenceIndex := some 0,
          aspectRatio := "original" }
        [none, none, none]).aspectRatio = "1:1" := by
  refine ⟨?_, ?_, ?_⟩
  · exact (claim_C4 _ _).1 ⟨0, true, false⟩ rfl (by decide)
  · exact (claim_C4 _ _).2.1 0 rfl (by decide)
  · exact (claim_C4 _ _).2.2.2 (by decide) (by decide) rfl

/-- Length of iterated single-result insertions, from any starting
history (helper for claim C5). -/
theorem historyFold_length (cap : Nat) (results : List GenerationResult) :
    ∀ h : List GenerationResult,
      (results.foldl (fun acc r => historyInsert cap [r] acc) h).length =
        if results = [] then h.length
        else min (h.length + results.length) cap := by
  induction results with
  | nil => intro h; simp
  | cons r rs ih =>
    intro h
    simp only [List.foldl_cons]
    rw [ih (historyInsert cap [r] h)]
    have hlen := historyInsert_length cap [r] h
    simp only [List.length_singleton] at hlen
    rw [if_neg (List.cons_ne_nil r rs)]
    by_cases hrs : rs = []
    · subst hrs
      rw [if_pos rfl, hlen]
      simp only [List.length_singleton]
      omega
    · rw [if_neg hrs, hlen]
      simp only [List.length_cons]
      omega

/-- Claim C5: generation-history insertion prepends the batch and
truncates to the cap, so its length is `min` of total and cap, the
`length ≤ cap` invariant holds after every insertion, `N` iterated
single-result insertions from empty give length `min N cap`, and the
head of the new history is the batch's first item — which, for a
fulfilled fan-out, is the seeded response of call 0 (request order). -/
theorem claim_C5 :
    (∀ (cap : Nat) (batch prev : List GenerationResult),
      (historyInsert cap batch prev).length =
        min (batch.length + prev.length) cap) ∧
    (∀ (cap : Nat) (batch prev : List GenerationResult),
      (historyInsert cap batch prev).length ≤ cap) ∧
    (∀ (cap : Nat) (batch prev : List GenerationResult),
      batch ≠ [] → 0 < cap →
      (historyInsert cap batch prev).head? = batch.head?) ∧
    (∀ (cap : Nat) (results : List GenerationResult),
      (results.foldl (fun acc r => historyInsert cap [r] acc) []).length =
        min results.length cap) ∧
    (∀ (n : Nat) (seed : Option Int)
        (call : Nat → Except String ParsedResponse)
        (rs : List GenerationResult) (gh : List GenerationResult),
      0 < n → fanOutGenerate n seed call = .ok rs →
      ∃ p, call 0 = .ok p ∧
        (historyInsert normalHistoryCap rs gh).head? =
          some (mkSeededResult seed p)) := by
  refine ⟨historyInsert_length, historyInsert_le_cap, historyInsert_head,
    ?_, ?_⟩
  · intro cap results
    rw [historyFold_length cap results []]
    by_cases h : results = []
    · subst h; simp
    · rw [if_neg h]; simp
  · intro n seed call rs gh hn hok
    rcases fanOutGenerate_get n seed call rs hok 0 hn with ⟨p, hp, hget⟩
    refine ⟨p, hp, ?_⟩
    have hne : rs ≠ [] := by
      intro hnil
      rw [hnil] at hget
      simp at hget
    rw [historyInsert_head normalHistoryCap rs gh hne
        (by norm_num [normalHistoryCap]),
      ← List.get?_zero, hget]

/-- Witness for C5: a singleton insertion at cap 10. -/
theorem claim_C5_witness :
    (historyInsert 10 [mkSeededResult none ⟨"i", none⟩] []).head? =
      some (mkSeededResult none ⟨"i", none⟩) := by
  rw [claim_C5.2.2.1 10 [mkSeededResult none ⟨"i", none⟩] []
    (by simp) (by norm_num)]
  rfl

/-- An all-inactive control-layer set (concrete test fixture). -/
def noControls : ControlLayers :=
  ⟨⟨none, 100⟩, ⟨none, 100⟩, ⟨none, 100⟩, ⟨none, 100⟩⟩

/-- A control-layer set with an active pose channel (concrete fixture). -/
def poseControlOnly : ControlLayers :=
  ⟨⟨some "pose-map", 100⟩, ⟨none, 100⟩, ⟨none, 100⟩, ⟨none, 100⟩⟩

/-- No edit in progress (concrete fixture). -/
def idleEditing : EditingState := ⟨false, none, none, none, none⟩

/-- An active generative-canvas edit carrying a base image and a mask
(concrete fixture). -/
def activeMaskEditing : EditingState :=
  ⟨true, some "src", some "edit-img", some "edit-mask", some "1:1"⟩

/-- `batchResults` effect of one batch iteration (helper for C2). -/
theorem batchStep_batchResults (iph : List String)
    (call : String → Except String (List GenerationResult))
    (st : BatchState) (p : String) :
    (batchStep iph call st p).batchResults =
      st.batchResults ++ ((call p).toOption.getD []) := by
  unfold batchStep
  cases hc : call p <;> split_ifs <;> simp [Except.toOption]

/-- Claim C2: failure handling is asymmetric.  (i) The N-variations
fan-out joins all-or-nothing: one rejected call rejects the whole join.
(ii) `handleGenerate` then keeps nothing: history and results are
untouched by a failed action.  (iii) The sequential batch loop is
per-item fault-isolated: its final result set is exactly the
concatenation of the successful items' results, in order — failed items
are skipped and the loop continues. -/
theorem claim_C2 :
    (∀ (n : Nat) (seed : Option Int)
        (call : Nat → Except String ParsedResponse) (i : Nat) (e : String),
      i < n → call i = .error e →
      ∃ e', fanOutGenerate n seed call = .error e') ∧
    (∀ (ph : List String) (gh : List GenerationResult) (s : Snapshot17)
        (call : GenCase → Except String (List GenerationResult)) (e : String),
      call (selectCase17 s) = .error e →
      (handleGenerate17 ph gh s call).generationHistory = gh ∧
      (handleGenerate17 ph gh s call).results = []) ∧
    (∀ (iph : List String)
        (call : String → Except String (List GenerationResult))
        (st : BatchState) (prompts : List String),
      (runBatch iph call st prompts).batchResults =
        st.batchResults ++
          (prompts.filterMap (fun p => (call p).toOption)).flatten) := by
  refine ⟨?_, ?_, ?_⟩
  · intro n seed call i e hi he
    apply promiseAll_error_of_mem_error _ e
    apply List.mem_map.mpr
    exact ⟨i, List.mem_range.mpr hi, by rw [he]; rfl⟩
  · intro ph gh s call e hcall
    unfold handleGenerate17
    cases hsel : selectCase17 s <;> rw [hsel] at hcall <;>
      simp [hcall]
  · intro iph call st prompts
    induction prompts generalizing st with
    | nil => simp [runBatch]
    | cons p ps ih =>
      show (runBatch iph call (batchStep iph call st p) ps).batchResults = _
      rw [ih (batchStep iph call st p), batchStep_batchResults,
        List.filterMap_cons]
      cases hc : call p with
      | ok rs => simp [Except.toOption, hc]
      | error e => simp [Except.toOption, hc]

/-- Witness for C2: a failing control-layer generation keeps the prior
history, while a two-item batch whose first item fails still delivers the
second item's result. -/
theorem claim_C2_witness :
    (handleGenerate17 [] [mkSeededResult none ⟨"old", none⟩]
        { uploadedImages := [none, none, none], prompt := "",
          controlLayers := poseControlOnly, editingState := idleEditing }
        (fun _ => .error "boom")).generationHistory =
      [mkSeededResult none ⟨"old", none⟩] ∧
    (runBatch [] (fun p => if p = "a" then .error "boom"
          else .ok [mkSeededResult none ⟨"b-img", none⟩])
        ⟨[], [], []⟩ ["a", "b"]).batchResults =
      [mkSeededResult none ⟨"b-img", none⟩] := by
  constructor
  · exact (claim_C2.2.1 [] [mkSeededResult none ⟨"old", none⟩]
      { uploadedImages := [none, none, none], prompt := "",
        controlLayers := poseControlOnly, editingState := idleEditing }
      (fun _ => .error "boom") "boom" rfl).1
  · rw [claim_C2.2.2 [] (fun p => if p = "a" then .error "boom"
        else .ok [mkSeededResult none ⟨"b-img", none⟩]) ⟨[], [], []⟩
        ["a", "b"]]
    rfl

/-- Counterexample to claim C9 as stated: the later variant's
persistence effect (App v1.7.0, line 906) writes the aspect-ratio entry
unconditionally, so after selecting `original` the stored value is the
`original` sentinel. -/
theorem claim_C9_counterexample :
    persistAspectRatio17 (some "1:1") "original" = some "original" := rfl

/-- Claim C9 (amended): the earlier variant's persistence effect
(App v1.2.0, lines 129–133) updates the stored entry only when the new
value is not `original`, so its stored value never becomes `original`;
the later variant's effect writes every value, including `original`. -/
theorem claim_C9 (stored : Option String) (ratio : String) :
    (ratio ≠ "original" → persistAspectRatio12 stored ratio = some ratio) ∧
    (ratio = "original" → persistAspectRatio12 stored ratio = stored) ∧
    (stored ≠ some "original" →
      persistAspectRatio12 stored ratio ≠ some "original") ∧
    persistAspectRatio17 stored ratio = some ratio := by
  refine ⟨?_, ?_, ?_, rfl⟩
  · intro h
    simp [persistAspectRatio12, h]
  · intro h
    simp [persistAspectRatio12, h]
  · intro h
    unfold persistAspectRatio12
    split_ifs with hr
    · intro hc
      exact hr (by injection hc)
    · exact h

/-- Witness for C9: persisting `16:9` over an empty store. -/
theorem claim_C9_witness :
    persistAspectRatio12 none "16:9" = some "16:9" :=
  (claim_C9 none "16:9").1 (by decide)

/-- Counterexample to claim C3 as stated: the later variant's import
(App v1.7.0, lines 1219–1256) never reads the file's `version`, so a
file with `version: "2.0.0"` is applied with no version-mismatch error
even though the running app's major version is 1, and the session state
changes. -/
theorem claim_C3_counterexample :
    (handleImportProject17
        { uploadedImages := [none, none, none], prompt := "",
          aspectRatio := "1:1", numberOfVariations := 1 }
        (some { version := some "2.0.0", uploadedImages := none,
                prompt := some "hello", aspectRatio := none,
                numberOfVariations := none })).2 = none ∧
    (handleImportProject17
        { uploadedImages := [none, none, none], prompt := "",
          aspectRatio := "1:1", numberOfVariations := 1 }
        (some { version := some "2.0.0", uploadedImages := none,
                prompt := some "hello", aspectRatio := none,
                numberOfVariations := none })).1.prompt = "hello" ∧
    majorVersionOf "2.0.0" = some 2 ∧
    majorVersionOf appVersion17 = some 1 := by
  refine ⟨rfl, rfl, by decide, by decide⟩

/-- Claim C3 (amended): the earlier variant's import (App v1.2.0, lines
413–504) validates the major-version rule before applying any field: a
file whose parsed major version exceeds the app's major version is
rejected with the distinct version-mismatch message, and the session
state is returned completely untouched.  The later variant's import
performs no version check at all. -/
theorem claim_C3 (current : ImportedState) (data : ProjectData)
    (v : String) (m : Nat) (hv : data.version = some v)
    (hm : majorVersionOf v = some m)
    (hgt : (majorVersionOf appVersion12).getD 0 < m) :
    handleImportProject12 current data =
      (current, some (versionMismatchError v)) := by
  have h0 : majorVersionOf "" = none := by decide
  have hvne : v ≠ "" := by
    intro h
    rw [h, h0] at hm
    exact Option.noConfusion hm
  unfold handleImportProject12
  rw [hv]
  simp only [hm, if_neg hvne, if_pos hgt]

/-- Witness for C3: importing a `version: "2.0.0"` file into the
v1.2.0 app (major version 1) is rejected and leaves state unchanged. -/
theorem claim_C3_witness :
    handleImportProject12
        { uploadedImages := [none, none, none], prompt := "",
          aspectRatio := "1:1", numberOfVariations := 1 }
        { version := some "2.0.0", uploadedImages := none,
          prompt := some "hello", aspectRatio := none,
          numberOfVariations := none } =
      ({ uploadedImages := [none, none, none], prompt := "",
         aspectRatio := "1:1", numberOfVariations := 1 },
       some (versionMismatchError "2.0.0")) :=
  claim_C3 _ _ "2.0.0" 2 rfl (by decide) (by decide)

/-- The prompt-history component of every `handleGenerate` outcome is
determined before the case selection and any remote call (helper for
claim C10). -/
theorem handleGenerate17_promptHistory (ph : List String)
    (gh : List GenerationResult) (s : Snapshot17)
    (call : GenCase → Except String (List GenerationResult)) :
    (handleGenerate17 ph gh s call).promptHistory =
      if hasPrompt s.prompt then promptHistoryInsert (jsTrim s.prompt) ph
      else ph := by
  unfold handleGenerate17
  cases hsel : selectCase17 s with
  | invalid => simp [hsel]
  | maskEdit => cases hc : call .maskEdit <;> simp [hsel, hc]
  | controlCompose => cases hc : call .controlCompose <;> simp [hsel, hc]
  | textToImage => cases hc : call .textToImage <;> simp [hsel, hc]
  | poseEdit => cases hc : call .poseEdit <;> simp [hsel, hc]
  | promptEdit => cases hc : call .promptEdit <;> simp [hsel, hc]

/-- Claim C10: whenever the trimmed prompt is non-empty, `handleGenerate`
inserts it at the front of the prompt history (dropping any duplicate,
capped at 50) before selecting a case or calling the service, so the
update is retained on every outcome — success, remote failure, and the
invalid-state validation error alike. -/
theorem claim_C10 (ph : List String) (gh : List GenerationResult)
    (s : Snapshot17)
    (call : GenCase → Except String (List GenerationResult)) :
    (hasPrompt s.prompt = true →
      (handleGenerate17 ph gh s call).promptHistory =
        promptHistoryInsert (jsTrim s.prompt) ph) ∧
    (hasPrompt s.prompt = false →
      (handleGenerate17 ph gh s call).promptHistory = ph) ∧
    (∀ (p : String) (prev : List String),
      (promptHistoryInsert p prev).head? = some p) ∧
    (∀ (p : String) (prev : List String),
      (promptHistoryInsert p prev).length ≤ 50) ∧
    (∀ (p : String) (prev : List String),
      (promptHistoryInsert p prev).count p = 1) := by
  refine ⟨?_, ?_, ?_, ?_, ?_⟩
  · intro h
    rw [handleGenerate17_promptHistory, if_pos h]
  · intro h
    rw [handleGenerate17_promptHistory, if_neg (by simp [h])]
  · intro p prev
    rfl
  · intro p prev
    simp [promptHistoryInsert, List.length_take_le 50]
  · intro p prev
    unfold promptHistoryInsert
    rw [show (50 : Nat) = 49 + 1 from rfl, List.take_succ_cons,
      List.count_cons_self]
    have hzero :
        (List.take 49 (prev.filter (· ≠ p))).count p = 0 := by
      have hsub := (List.take_sublist 49 (prev.filter (· ≠ p))).count_le p
      have hfil : (prev.filter (· ≠ p)).count p = 0 := by
        rw [List.count_eq_zero]
        intro hmem
        have := (List.mem_filter.mp hmem).2
        simp at this
      omega
    omega

/-- Witness for C10: a failing text-to-image call still records the
trimmed prompt at the head of the prompt history. -/
theorem claim_C10_witness :
    (handleGenerate17 [] []
        { uploadedImages := [none, none, none], prompt := " hat ",
          controlLayers := noControls, editingState := idleEditing }
        (fun _ => .error "boom")).promptHistory = ["hat"] := by
  rw [(claim_C10 [] []
      { uploadedImages := [none, none, none], prompt := " hat ",
        controlLayers := noControls, editingState := idleEditing }
      (fun _ => .error "boom")).1 (by decide)]
  rfl

/-- Counterexample to claim C1 as stated: with an active edit carrying a
base image and a painted mask but an EMPTY prompt (and no control layer,
no uploaded image), the v1.7.0 code selects the mask-edit case, while the
claim's priority table — whose case (1) requires a non-empty prompt —
falls through to the validation-error case. -/
theorem claim_C1_counterexample :
    selectCase17
        { uploadedImages := [none, none, none], prompt := "",
          controlLayers := noControls, editingState := activeMaskEditing } =
      GenCase.maskEdit ∧
    claimedSelectCaseOf17
        { uploadedImages := [none, none, none], prompt := "",
          controlLayers := noControls,
          editingState := activeMaskEditing } = GenCase.invalid ∧
    GenCase.maskEdit ≠ GenCase.invalid := by
  refine ⟨by decide, by decide, by decide⟩

/-- Claim C1 (amended): both variants evaluate their case guards in a
strict top-down priority order, first match winning, and always select
exactly one case.  v1.7.0 (first bundle): (1) mask-edit when the edit in
progress carries a base image and a mask — with no prompt requirement;
(2) control composition; (3) text-to-image; (4) prompt-driven edit (the
"no control layer" side condition is realised by falling through case 2,
not tested separately); (5) otherwise the validation error; the
pose-driven case does not exist in this variant.  v1.2.0 (second bundle):
(1) mask-edit additionally requires draw-mode `prompt` and a non-empty
prompt; (2) text-to-image; (3) pose-driven edit; (4) prompt-driven edit;
(5) otherwise the validation error; the control case does not exist. -/
theorem claim_C1 (s17 : Snapshot17) (s12 : Snapshot12) :
    (((s17.editingState.isActive ∧ s17.editingState.editImage.isSome ∧
          s17.editingState.editMask.isSome) →
        selectCase17 s17 = .maskEdit) ∧
      (¬(s17.editingState.isActive ∧ s17.editingState.editImage.isSome ∧
          s17.editingState.editMask.isSome) →
        hasActiveControl s17.controlLayers →
        selectCase17 s17 = .controlCompose) ∧
      (¬(s17.editingState.isActive ∧ s17.editingState.editImage.isSome ∧
          s17.editingState.editMask.isSome) →
        ¬hasActiveControl s17.controlLayers →
        (hasPrompt s17.prompt ∧ validImages s17.uploadedImages = []) →
        selectCase17 s17 = .textToImage) ∧
      (¬(s17.editingState.isActive ∧ s17.editingState.editImage.isSome ∧
          s17.editingState.editMask.isSome) →
        ¬hasActiveControl s17.controlLayers →
        (hasPrompt s17.prompt ∧ validImages s17.uploadedImages ≠ []) →
        selectCase17 s17 = .promptEdit) ∧
      (¬(s17.editingState.isActive ∧ s17.editingState.editImage.isSome ∧
          s17.editingState.editMask.isSome) →
        ¬hasActiveControl s17.controlLayers →
        ¬hasPrompt s17.prompt →
        selectCase17 s17 = .invalid) ∧
      selectCase17 s17 ≠ .poseEdit ∧
      (selectCase17 s17 = .maskEdit ∨ selectCase17 s17 = .controlCompose ∨
        selectCase17 s17 = .textToImage ∨ selectCase17 s17 = .promptEdit ∨
        selectCase17 s17 = .invalid)) ∧
    (((s12.editMode = .prompt ∧ hasPrompt s12.prompt ∧
          validImages s12.uploadedImages ≠ [] ∧ s12.maskImage.isSome) →
        selectCase12 s12 = .maskEdit) ∧
      (¬(s12.editMode = .prompt ∧ hasPrompt s12.prompt ∧
          validImages s12.uploadedImages ≠ [] ∧ s12.maskImage.isSome) →
        (s12.editMode = .prompt ∧ hasPrompt s12.prompt ∧
          validImages s12.uploadedImages = []) →
        selectCase12 s12 = .textToImage) ∧
      (¬(s12.editMode = .prompt ∧ hasPrompt s12.prompt ∧
          validImages s12.uploadedImages ≠ [] ∧ s12.maskImage.isSome) →
        ¬(s12.editMode = .prompt ∧ hasPrompt s12.prompt ∧
          validImages s12.uploadedImages = []) →
        (s12.editMode = .pose ∧ s12.canvasImage.isSome ∧
          validImages s12.uploadedImages ≠ []) →
        selectCase12 s12 = .poseEdit) ∧
      (¬(s12.editMode = .prompt ∧ hasPrompt s12.prompt ∧
          validImages s12.uploadedImages ≠ [] ∧ s12.maskImage.isSome) →
        ¬(s12.editMode = .prompt ∧ hasPrompt s12.prompt ∧
          validImages s12.uploadedImages = []) →
        ¬(s12.editMode = .pose ∧ s12.canvasImage.isSome ∧
          validImages s12.uploadedImages ≠ []) →
        (s12.editMode = .prompt ∧ hasPrompt s12.prompt ∧
          validImages s12.uploadedImages ≠ []) →
        selectCase12 s12 = .promptEdit) ∧
      (¬(s12.editMode = .prompt ∧ hasPrompt s12.prompt ∧
          validImages s12.uploadedImages ≠ [] ∧ s12.maskImage.isSome) →
        ¬(s12.editMode = .prompt ∧ hasPrompt s12.prompt ∧
          validImages s12.uploadedImages = []) →
        ¬(s12.editMode = .pose ∧ s12.canvasImage.isSome ∧
          validImages s12.uploadedImages ≠ []) →
        ¬(s12.editMode = .prompt ∧ hasPrompt s12.prompt ∧
          validImages s12.uploadedImages ≠ []) →
        selectCase12 s12 = .invalid) ∧
      selectCase12 s12 ≠ .controlCompose ∧
      (selectCase12 s12 = .maskEdit ∨ selectCase12 s12 = .textToImage ∨
        selectCase12 s12 = .poseEdit ∨ selectCase12 s12 = .promptEdit ∨
        selectCase12 s12 = .invalid)) := by
  constructor
  · refine ⟨?_, ?_, ?_, ?_, ?_, ?_, ?_⟩
    · intro h1
      unfold selectCase17
      rw [if_pos h1]
    · intro h1 h2
      unfold selectCase17
      rw [if_neg h1, if_pos h2]
    · intro h1 h2 h3
      unfold selectCase17
      rw [if_neg h1, if_neg h2, if_pos h3]
    · intro h1 h2 h3
      unfold selectCase17
      rw [if_neg h1, if_neg h2, if_neg (fun hc => h3.2 hc.2), if_pos h3]
    · intro h1 h2 h3
      unfold selectCase17
      rw [if_neg h1, if_neg h2, if_neg (fun hc => h3 hc.1),
        if_neg (fun hc => h3 hc.1)]
    · unfold selectCase17
      split_ifs <;> simp
    · unfold selectCase17
      split_ifs <;> simp
  · refine ⟨?_, ?_, ?_, ?_, ?_, ?_, ?_⟩
    · intro h1
      unfold selectCase12
      rw [if_pos h1]
    · intro h1 h2
      unfold selectCase12
      rw [if_neg h1, if_pos h2]
    · intro h1 h2 h3
      unfold selectCase12
      rw [if_neg h1, if_neg h2, if_pos h3]
    · intro h1 h2 h3 h4
      unfold selectCase12
      rw [if_neg h1, if_neg h2, if_neg h3, if_pos h4]
    · intro h1 h2 h3 h4
      unfold selectCase12
      rw [if_neg h1, if_neg h2, if_neg h3, if_neg h4]
    · unfold selectCase12
      split_ifs <;> simp
    · unfold selectCase12
      split_ifs <;> simp

/-- Witness for C1: an active pose control layer selects control
composition in the later variant; pose mode with a drawn canvas and an
uploaded image selects the pose-driven edit in the earlier variant. -/
theorem claim_C1_witness :
    selectCase17
        { uploadedImages := [none, none, none], prompt := "",
          controlLayers := poseControlOnly, editingState := idleEditing } =
      GenCase.controlCompose ∧
    selectCase12
        { uploadedImages := [some "img", none, none], prompt := "",
          canvasImage := some "canvas", maskImage := none,
          editMode := .pose } = GenCase.poseEdit := by
  constructor
  · exact (claim_C1
      { uploadedImages := [none, none, none], prompt := "",
        controlLayers := poseControlOnly, editingState := idleEditing }
      { uploadedImages := [], prompt := "", canvasImage := none,
        maskImage := none, editMode := .pose }).1.2.1
      (by decide) (by decide)
  · exact (claim_C1
      { uploadedImages := [none, none, none], prompt := "",
        controlLayers := noControls, editingState := idleEditing }
      { uploadedImages := [some "img", none, none], prompt := "",
        canvasImage := some "canvas", maskImage := none,
        editMode := .pose }).2.2.2.1 (by decide) (by decide) (by decide)

end PoseAnimator
